import Mathlib

/-!
Verification development for the `tmp-postgrust` crate: a shallow embedding of
`src/lib.rs`, `src/synchronous.rs` and `src/asynchronous.rs`, together with
theorems settling the specification claims about instance creation, error
propagation, the port counter, the concurrency limiter and guard teardown.

External effects (temporary-directory creation, file metadata, the outcomes of
spawned commands, the bytes of the postgres stderr stream) are supplied through
explicit environment records; the control flow acting on those outcomes is
translated statement by statement from the Rust source.  Rust panics
(`unwrap` / `expect`) are modelled as a third result alternative distinct from
`Ok` and from the crate's typed `Err`.
-/

namespace TmpPostgrust

/-- Description of an OS-level I/O error (the payload of `std::io::Error` as far
as the crate's control flow is concerned). -/
abbrev IoErr := String

/-- `errors::ProcessCapture`: captured stdout/stderr of a ran-but-failed command. -/
structure ProcessCapture where
  stdout : String
  stderr : String
deriving DecidableEq, Repr

/-- The crate's error enum (`errors::TmpPostgrustError`).  `errors.rs` itself is
not among the provided sources; the variants and their payloads are exactly the
ones constructed at the call sites inside `lib.rs`, `synchronous.rs` and
`asynchronous.rs`. -/
inductive TmpPostgrustError where
  | CreateSocketDirFailed (e : IoErr)
  | CreateCacheDirFailed (e : IoErr)
  | CreateConfigFailed (e : IoErr)
  | InitDBFailed (capture : ProcessCapture)
  | CopyCachedInitDBFailed (capture : ProcessCapture)
  | CopyCachedInitDBFailedFileNotFound (e : IoErr)
  | CreateDBFailed (capture : ProcessCapture)
  | ExecSubprocessFailed (source : IoErr) (command : String)
  | SpawnSubprocessFailed (e : IoErr)
  | EmptyDataDirectory
deriving DecidableEq, Repr

/-- Result of a Rust computation that can return `Ok`, return the crate's typed
error (`TmpPostgrustResult`), or abort the thread by panicking (`unwrap`,
`expect`). -/
inductive Outcome (α : Type) where
  | ok (a : α)
  | err (e : TmpPostgrustError)
  | panic (msg : String)
deriving DecidableEq, Repr

/-- `true` exactly on the `ok` alternative. -/
def Outcome.isSuccess : Outcome α → Bool
  | .ok _ => true
  | _ => false

/-- `true` exactly on the `panic` alternative. -/
def Outcome.isPanicked : Outcome α → Bool
  | .panic _ => true
  | _ => false

/-- `true` exactly on the `err` alternative (a typed `TmpPostgrustError`). -/
def Outcome.isTypedErr : Outcome α → Bool
  | .err _ => true
  | _ => false

/-- Captured raw bytes of a subprocess stream, abstracted by their UTF-8
decoding: `decoded = some s` when `String::from_utf8` succeeds with `s`,
`decoded = none` when the bytes are not valid UTF-8. -/
structure RawOutput where
  decoded : Option String
deriving DecidableEq, Repr

/-- The OS-level result of `Command::output()`: either the command could not be
spawned at all, or it ran to completion with an exit status and captured
stdout/stderr bytes. -/
inductive CmdOutcome where
  | spawnFailed (e : IoErr)
  | ran (success : Bool) (stdout : RawOutput) (stderr : RawOutput)
deriving DecidableEq, Repr

/-- A ran-to-completion, exit-status-zero command whose captured streams are
valid UTF-8 (the case in which `exec_process` returns `Ok(())`). -/
def CmdOutcome.isCleanSuccess : CmdOutcome → Bool
  | .ran true ⟨some _⟩ ⟨some _⟩ => true
  | _ => false

/-- Both captured streams of a ran command decode as UTF-8 (vacuously true for
a spawn failure, where nothing is decoded). -/
def CmdOutcome.decodes : CmdOutcome → Bool
  | .spawnFailed _ => true
  | .ran _ o e => o.decoded.isSome && e.decoded.isSome

/-- `exec_process` (`synchronous.rs` lines 21-46; the `asynchronous.rs` version
at lines 23-49 is identical up to `.await`): run the command, map an OS spawn
failure to `ExecSubprocessFailed` carrying the command's description, decode
both captured streams with `String::from_utf8(..).unwrap()` (a panic on invalid
UTF-8), return `Ok(())` on a zero exit status and otherwise the call-site
supplied classified error carrying the capture. -/
def exec_process (command : String) (fail : ProcessCapture → TmpPostgrustError)
    (result : CmdOutcome) : Outcome Unit :=
  match result with
  | .spawnFailed e => .err (.ExecSubprocessFailed e command)
  | .ran success stdout stderr =>
    if success then
      match stdout.decoded with
      | some _ => .ok ()
      | none => .panic "String::from_utf8(output.stdout) failed"
    else
      match stdout.decoded with
      | none => .panic "String::from_utf8(output.stdout) failed"
      | some so =>
        match stderr.decoded with
        | none => .panic "String::from_utf8(output.stderr) failed"
        | some se => .err (fail ⟨so, se⟩)

/-- Description of the `createdb` command built in `exec_create_db`
(`synchronous.rs` lines 109-130). -/
def createDbCommand (socket : String) (port : Nat) (owner dbname : String) : String :=
  "createdb -h " ++ socket ++ " -p " ++ toString port ++ " -U postgres -O " ++
    owner ++ " --echo " ++ dbname

/-- Description of the `createuser` command built in `exec_create_user`
(`synchronous.rs` lines 132-151). -/
def createUserCommand (socket : String) (port : Nat) (username : String) : String :=
  "createuser -h " ++ socket ++ " -p " ++ toString port ++ " -U postgres --superuser --echo " ++
    username

/-- `exec_create_db` (`synchronous.rs` lines 109-130 / `asynchronous.rs` lines
113-135): runs `createdb`, classifying a ran-but-failed command as
`TmpPostgrustError::CreateDBFailed`. -/
def exec_create_db (socket : String) (port : Nat) (owner dbname : String)
    (result : CmdOutcome) : Outcome Unit :=
  exec_process (createDbCommand socket port owner dbname)
    TmpPostgrustError.CreateDBFailed result

/-- `exec_create_user` (`synchronous.rs` lines 132-151 / `asynchronous.rs`
lines 137-157): runs `createuser`.  NOTE: the source passes
`TmpPostgrustError::CreateDBFailed` as the classifier here as well — the same
error kind as `exec_create_db` — in both the synchronous and the asynchronous
version. -/
def exec_create_user (socket : String) (port : Nat) (username : String)
    (result : CmdOutcome) : Outcome Unit :=
  exec_process (createUserCommand socket port username)
    TmpPostgrustError.CreateDBFailed result

/-- `exec_init_db` classifier (`synchronous.rs` lines 67-77): runs `initdb`
with `InitDBFailed` as the classifier; the `initdb` binary is first located
with `find_postgresql_command(..).expect(..)` (a panic when absent). -/
def exec_init_db (dataDirectory : String) (findInitdb : Option String)
    (result : CmdOutcome) : Outcome Unit :=
  match findInitdb with
  | none => .panic "failed to find initdb"
  | some _ =>
    exec_process ("initdb PGDATA=" ++ dataDirectory ++ " --username=postgres")
      TmpPostgrustError.InitDBFailed result

deriving instance DecidableEq for Except

/-- One item yielded by `src_dir.read_dir()` inside `exec_copy_dir`, together
with the outcome of the `cp` command the loop runs for it. -/
structure DirEntryRead where
  entry : Except IoErr String
  cp : CmdOutcome
deriving DecidableEq, Repr

/-- Description of the `cp` command built per entry in `exec_copy_dir`
(`synchronous.rs` lines 95-103, non-macos branch). -/
def copyCommand (entryPath dst : String) : String :=
  "cp -R --reflink=auto " ++ entryPath ++ " " ++ dst

/-- The body of `exec_copy_dir`'s `for` loop over the directory entries: an
`Err` item from the iterator becomes `CopyCachedInitDBFailedFileNotFound`, and
each entry's `cp` run goes through `exec_process` with
`CopyCachedInitDBFailed` as the classifier, stopping at the first failure. -/
def copyEntriesLoop (dst : String) : List DirEntryRead → Outcome Unit
  | [] => .ok ()
  | d :: rest =>
    match d.entry with
    | .error e => .err (.CopyCachedInitDBFailedFileNotFound e)
    | .ok p =>
      match exec_process (copyCommand p dst) TmpPostgrustError.CopyCachedInitDBFailed d.cp with
      | .ok _ => copyEntriesLoop dst rest
      | .err e => .err e
      | .panic m => .panic m

/-- `exec_copy_dir` (`synchronous.rs` lines 80-107 / `asynchronous.rs` lines
84-111): `read_dir` failure becomes `CopyCachedInitDBFailedFileNotFound`,
otherwise each entry is copied with `cp -R --reflink=auto`. -/
def exec_copy_dir (dst : String) (readDir : Except IoErr (List DirEntryRead)) : Outcome Unit :=
  match readDir with
  | .error e => .err (.CopyCachedInitDBFailedFileNotFound e)
  | .ok entries => copyEntriesLoop dst entries

/-- The fixed readiness marker scanned for on the postgres stderr stream
(`lib.rs` lines 164 and 265). -/
def readinessMarker : String := "database system is ready to accept connections"

/-- `pat` is a leading segment of `s` (over character lists). -/
def leadsWith : List Char → List Char → Bool
  | [], _ => true
  | _ :: _, [] => false
  | p :: ps, c :: cs => p == c && leadsWith ps cs

/-- `pat` occurs as a contiguous sub-sequence of the character list. -/
def hasSubSeq (pat : List Char) : List Char → Bool
  | [] => leadsWith pat []
  | c :: rest => leadsWith pat (c :: rest) || hasSubSeq pat rest

/-- Rust's `str::contains(pat)` — substring containment. -/
def containsSub (s pat : String) : Bool := hasSubSeq pat.data s.data

/-- The synchronous readiness scan (`lib.rs` lines 162-168):
`while let Some(Ok(line)) = stderr_reader.next()` — the loop `break`s when a
line contains the marker, and simply ends when the stream ends or a read yields
`Err`.  Returns whether the marker was observed; the caller ignores this. -/
def syncReadyLoop : List (Except IoErr String) → Bool
  | [] => false
  | .error _ :: _ => false
  | .ok line :: rest =>
    if containsSub line readinessMarker then true else syncReadyLoop rest

/-- The asynchronous readiness scan (`lib.rs` lines 263-269):
`while let Some(line) = stderr_reader.next_line().await.unwrap()` — a read
error panics (`unwrap`); end of stream (`Ok(None)`) ends the loop. -/
def asyncReadyLoop : List (Except IoErr String) → Outcome Bool
  | [] => .ok false
  | .error _ :: _ => .panic "stderr_reader.next_line() unwrap failed"
  | .ok line :: rest =>
    if containsSub line readinessMarker then .ok true else asyncReadyLoop rest

/-- `TmpPostgrustFactory` (`lib.rs` lines 61-67): the socket directory shared
by all instances, the cache (template) directory, the generated configuration
text and the `AtomicU32` port counter (held as the `Nat` it stores, always
`< 2^32`). -/
structure TmpPostgrustFactory where
  socketDirPath : String
  cacheDirPath : String
  config : String
  next_port : Nat
deriving DecidableEq, Repr

/-- `TmpPostgrustFactory::build_config` (`lib.rs` lines 71-84): three
directives — a 12MB shared-buffer cap, an empty `listen_addresses` list, and
the factory's socket directory as the UNIX socket directory. -/
def build_config (socketDirPath : String) : String :=
  "shared_buffers = \x2712MB\x27\n" ++ "listen_addresses = \x27\x27\n" ++
    "unix_socket_directories = \x27" ++ socketDirPath ++ "\x27\n"

/-- External effects consumed by `TmpPostgrustFactory::try_new` (`lib.rs` lines
88-104): the two `TempDir::new` results (the created paths) and the outcome of
the `initdb` run. -/
structure FactoryEnv where
  socketDir : Except IoErr String
  cacheDir : Except IoErr String
  findInitdb : Option String
  initDb : CmdOutcome
deriving DecidableEq, Repr

/-- `TmpPostgrustFactory::try_new` (`lib.rs` lines 88-104): create the socket
and cache temporary directories, run `initdb` against the cache directory,
build the config, and start the port counter at 5432.
(`try_new_async`, `lib.rs` lines 109-125, is identical up to `.await`.) -/
def try_new (env : FactoryEnv) : Outcome TmpPostgrustFactory :=
  match env.socketDir with
  | .error e => .err (.CreateSocketDirFailed e)
  | .ok socketPath =>
    match env.cacheDir with
    | .error e => .err (.CreateCacheDirFailed e)
    | .ok cachePath =>
      match exec_init_db cachePath env.findInitdb env.initDb with
      | .err e => .err e
      | .panic m => .panic m
      | .ok _ =>
        .ok ⟨socketPath, cachePath, build_config socketPath, 5432⟩

/-- `2^32`: the modulus of the `AtomicU32` port counter. -/
def u32Mod : Nat := 2 ^ 32

/-- `AtomicU32::fetch_add(1, SeqCst)` (`lib.rs` lines 150-152): returns the
previous value and stores the wrapping successor. -/
def fetchAddOne (c : Nat) : Nat × Nat := (c, (c + 1) % u32Mod)

/-- The ports handed out by `n` successive `fetch_add(1)` calls on a counter
currently holding `c`. -/
def portsFrom (c : Nat) : Nat → List Nat
  | 0 => []
  | n + 1 => (fetchAddOne c).1 :: portsFrom (fetchAddOne c).2 n

/-- Observable events of one instance-creation call, in program order. -/
inductive Ev where
  | acquirePermit
  | createDataDir
  | setPermsFromCache
  | copyTemplate
  | checkVersionMarker (present : Bool)
  | writeConfig
  | allocPort (p : Nat)
  | spawnPostgres
  | scanReadiness (found : Bool)
  | runCreateUser
  | runCreateDb
  | guardReturned
deriving DecidableEq, Repr

/-- External effects consumed by one `new_instance` / `new_instance_async`
call: the `TempDir::new("tmp-postgrust-db")` result, the
`metadata(cache_dir)` and `set_permissions` results, the `read_dir` listing
with one `cp` outcome per entry, whether `PG_VERSION` exists in the
materialized directory, the two config-file writes, the postgres binary
lookup, the `spawn` result, the stderr stream contents, and the outcomes of
the `createuser` and `createdb` bootstrap commands. -/
structure InstanceEnv where
  dataDir : Except IoErr String
  cacheMetadata : Except IoErr Unit
  setPerms : Except IoErr Unit
  readDir : Except IoErr (List DirEntryRead)
  pgVersionExists : Bool
  createConfFile : Except IoErr Unit
  writeConf : Except IoErr Unit
  findPostgres : Option String
  spawn : Except IoErr Unit
  stderrLines : List (Except IoErr String)
  createUser : CmdOutcome
  createDb : CmdOutcome
deriving DecidableEq, Repr

/-- Every effect of an `InstanceEnv` succeeds (ran commands with decodable
output, `PG_VERSION` present, postgres binary found). -/
def InstanceEnv.allOk (env : InstanceEnv) : Bool :=
  env.dataDir.isOk && env.cacheMetadata.isOk && env.setPerms.isOk &&
    (match env.readDir with
      | .ok entries => entries.all fun d => d.entry.isOk && d.cp.isCleanSuccess
      | .error _ => false) &&
    env.pgVersionExists && env.createConfFile.isOk && env.writeConf.isOk &&
    env.findPostgres.isSome && env.spawn.isOk &&
    env.createUser.isCleanSuccess && env.createDb.isCleanSuccess

/-- `synchronous::ProcessGuard` (`synchronous.rs` lines 155-171), restricted to
the data the claims are about: the connection string, the port the process was
started on, the instance's private data directory and the shared socket
directory. -/
structure SyncProcessGuard where
  connection_string : String
  port : Nat
  dataDirPath : String
  socketDirPath : String
deriving DecidableEq, Repr

/-- `asynchronous::ProcessGuard` (`asynchronous.rs` lines 161-179): as the
synchronous guard, plus the held `send_done` oneshot sender and the
`SemaphorePermit` taken from `MAX_CONCURRENT_PROCESSES`. -/
structure AsyncProcessGuard where
  connection_string : String
  port : Nat
  dataDirPath : String
  socketDirPath : String
  sendDone : Bool
  holdsPermit : Bool
deriving DecidableEq, Repr

/-- Result of one instance-creation call: the outcome, the trace of observable
events, and the value the factory's port counter holds afterwards. -/
structure InstanceResult (γ : Type) where
  outcome : Outcome γ
  trace : List Ev
  next_port : Nat
deriving DecidableEq, Repr

/-- The connection string built at `lib.rs` lines 178-185 (and 283-290):
`format!("postgresql://{}@{}:{}/{}?host={}", dbuser, "localhost", port, dbname, socket_dir)`. -/
def connectionString (dbuser : String) (port : Nat) (dbname : String)
    (socketDirPath : String) : String :=
  "postgresql://" ++ dbuser ++ "@" ++ "localhost" ++ ":" ++ toString port ++ "/" ++
    dbname ++ "?host=" ++ socketDirPath

/-- The tail of `new_instance` from the `fetch_add` port allocation on
(`lib.rs` lines 150-190); split out only to keep each definition readable. -/
def newInstanceAfterConfig (f : TmpPostgrustFactory) (env : InstanceEnv)
    (dataDirPath : String) : InstanceResult SyncProcessGuard :=
  let port := (fetchAddOne f.next_port).1
  let counterNext := (fetchAddOne f.next_port).2
  let preTrace : List Ev :=
    [.createDataDir, .setPermsFromCache, .copyTemplate, .checkVersionMarker true,
      .writeConfig, .allocPort port]
  match env.findPostgres with
  | none => ⟨.panic "failed to find postgres", preTrace, counterNext⟩
  | some _ =>
    match env.spawn with
    | .error e => ⟨.err (.SpawnSubprocessFailed e), preTrace, counterNext⟩
    | .ok _ =>
      let ready := syncReadyLoop env.stderrLines
      let dbname := "demo"
      let dbuser := "demo"
      let scanned := preTrace ++ [.spawnPostgres, .scanReadiness ready]
      match exec_create_user f.socketDirPath port dbname env.createUser with
      | .err _ => ⟨.panic "exec_create_user unwrap failed", scanned ++ [.runCreateUser], counterNext⟩
      | .panic m => ⟨.panic m, scanned ++ [.runCreateUser], counterNext⟩
      | .ok _ =>
        match exec_create_db f.socketDirPath port dbname dbuser env.createDb with
        | .err _ =>
          ⟨.panic "exec_create_db unwrap failed",
            scanned ++ [.runCreateUser, .runCreateDb], counterNext⟩
        | .panic m => ⟨.panic m, scanned ++ [.runCreateUser, .runCreateDb], counterNext⟩
        | .ok _ =>
          ⟨.ok ⟨connectionString dbuser port dbname f.socketDirPath, port, dataDirPath,
              f.socketDirPath⟩,
            scanned ++ [.runCreateUser, .runCreateDb, .guardReturned], counterNext⟩

/-- `TmpPostgrustFactory::new_instance` (`lib.rs` lines 129-190), translated
statement by statement: create the instance `TempDir` (an error is mapped to
`CreateCacheDirFailed`); copy the cache directory's permissions onto it
(`metadata(..).unwrap()` and `set_permissions(..).unwrap()` — panics on
failure); `exec_copy_dir` the template into it (`?`); fail with
`EmptyDataDirectory` when `PG_VERSION` is absent; create and write
`postgresql.conf` (errors mapped to `CreateConfigFailed`); `fetch_add` the
port; spawn postgres (`find_postgresql_command(..).expect(..)` panics, a spawn
error is `SpawnSubprocessFailed`); scan stderr for the readiness marker
(result unused); run `exec_create_user(..).unwrap()` and
`exec_create_db(..).unwrap()` (panics on failure); return the guard.  In the
source `dbname` and `dbuser` are both the fixed string `"demo"`, and the call
sites pass `exec_create_user(socket, port, dbname)` and
`exec_create_db(socket, port, dbname, dbuser)`. -/
def new_instance (f : TmpPostgrustFactory) (env : InstanceEnv) :
    InstanceResult SyncProcessGuard :=
  match env.dataDir with
  | .error e => ⟨.err (.CreateCacheDirFailed e), [], f.next_port⟩
  | .ok dataDirPath =>
    match env.cacheMetadata with
    | .error _ => ⟨.panic "metadata(cache_dir) unwrap failed", [.createDataDir], f.next_port⟩
    | .ok _ =>
      match env.setPerms with
      | .error _ => ⟨.panic "set_permissions unwrap failed", [.createDataDir], f.next_port⟩
      | .ok _ =>
        match exec_copy_dir dataDirPath env.readDir with
        | .err e => ⟨.err e, [.createDataDir, .setPermsFromCache], f.next_port⟩
        | .panic m => ⟨.panic m, [.createDataDir, .setPermsFromCache], f.next_port⟩
        | .ok _ =>
          if env.pgVersionExists = false then
            ⟨.err .EmptyDataDirectory,
              [.createDataDir, .setPermsFromCache, .copyTemplate, .checkVersionMarker false],
              f.next_port⟩
          else
            match env.createConfFile with
            | .error e =>
              ⟨.err (.CreateConfigFailed e),
                [.createDataDir, .setPermsFromCache, .copyTemplate, .checkVersionMarker true],
                f.next_port⟩
            | .ok _ =>
              match env.writeConf with
              | .error e =>
                ⟨.err (.CreateConfigFailed e),
                  [.createDataDir, .setPermsFromCache, .copyTemplate, .checkVersionMarker true],
                  f.next_port⟩
              | .ok _ =>
                newInstanceAfterConfig f env dataDirPath

/-- The tail of `new_instance_async` from the `fetch_add` port allocation on
(`lib.rs` lines 234-296).  It differs from the synchronous tail in that the
readiness scan panics on a stream read error
(`next_line().await.unwrap()`), a supervising task racing process exit
against the stop request is spawned, and the returned guard holds the oneshot
sender and the semaphore permit. -/
def newInstanceAsyncAfterConfig (f : TmpPostgrustFactory) (env : InstanceEnv)
    (dataDirPath : String) : InstanceResult AsyncProcessGuard :=
  let port := (fetchAddOne f.next_port).1
  let counterNext := (fetchAddOne f.next_port).2
  let preTrace : List Ev :=
    [.acquirePermit, .createDataDir, .setPermsFromCache, .copyTemplate,
      .checkVersionMarker true, .writeConfig, .allocPort port]
  match env.findPostgres with
  | none => ⟨.panic "failed to find postgres", preTrace, counterNext⟩
  | some _ =>
    match env.spawn with
    | .error e => ⟨.err (.SpawnSubprocessFailed e), preTrace, counterNext⟩
    | .ok _ =>
      match asyncReadyLoop env.stderrLines with
      | .err e => ⟨.err e, preTrace ++ [.spawnPostgres], counterNext⟩
      | .panic m => ⟨.panic m, preTrace ++ [.spawnPostgres], counterNext⟩
      | .ok ready =>
        let dbname := "demo"
        let dbuser := "demo"
        let scanned := preTrace ++ [.spawnPostgres, .scanReadiness ready]
        match exec_create_user f.socketDirPath port dbname env.createUser with
        | .err _ =>
          ⟨.panic "exec_create_user unwrap failed", scanned ++ [.runCreateUser], counterNext⟩
        | .panic m => ⟨.panic m, scanned ++ [.runCreateUser], counterNext⟩
        | .ok _ =>
          match exec_create_db f.socketDirPath port dbname dbuser env.createDb with
          | .err _ =>
            ⟨.panic "exec_create_db unwrap failed",
              scanned ++ [.runCreateUser, .runCreateDb], counterNext⟩
          | .panic m => ⟨.panic m, scanned ++ [.runCreateUser, .runCreateDb], counterNext⟩
          | .ok _ =>
            ⟨.ok ⟨connectionString dbuser port dbname f.socketDirPath, port, dataDirPath,
                f.socketDirPath, true, true⟩,
              scanned ++ [.runCreateUser, .runCreateDb, .guardReturned], counterNext⟩

/-- `TmpPostgrustFactory::new_instance_async` (`lib.rs` lines 196-296).  Its
very first statement acquires one permit from
`asynchronous::MAX_CONCURRENT_PROCESSES` (`.acquire().await.unwrap()`; the
static semaphore is never closed, so the acquire result is `Ok`); the rest
mirrors `new_instance` with `tokio` primitives, ending with a guard that owns
the stop-request sender and the permit. -/
def new_instance_async (f : TmpPostgrustFactory) (env : InstanceEnv) :
    InstanceResult AsyncProcessGuard :=
  match env.dataDir with
  | .error e => ⟨.err (.CreateCacheDirFailed e), [.acquirePermit], f.next_port⟩
  | .ok dataDirPath =>
    match env.cacheMetadata with
    | .error _ =>
      ⟨.panic "metadata(cache_dir) unwrap failed", [.acquirePermit, .createDataDir], f.next_port⟩
    | .ok _ =>
      match env.setPerms with
      | .error _ =>
        ⟨.panic "set_permissions unwrap failed", [.acquirePermit, .createDataDir], f.next_port⟩
      | .ok _ =>
        match exec_copy_dir dataDirPath env.readDir with
        | .err e => ⟨.err e, [.acquirePermit, .createDataDir, .setPermsFromCache], f.next_port⟩
        | .panic m =>
          ⟨.panic m, [.acquirePermit, .createDataDir, .setPermsFromCache], f.next_port⟩
        | .ok _ =>
          if env.pgVersionExists = false then
            ⟨.err .EmptyDataDirectory,
              [.acquirePermit, .createDataDir, .setPermsFromCache, .copyTemplate,
                .checkVersionMarker false],
              f.next_port⟩
          else
            match env.createConfFile with
            | .error e =>
              ⟨.err (.CreateConfigFailed e),
                [.acquirePermit, .createDataDir, .setPermsFromCache, .copyTemplate,
                  .checkVersionMarker true],
                f.next_port⟩
            | .ok _ =>
              match env.writeConf with
              | .error e =>
                ⟨.err (.CreateConfigFailed e),
                  [.acquirePermit, .createDataDir, .setPermsFromCache, .copyTemplate,
                    .checkVersionMarker true],
                  f.next_port⟩
              | .ok _ =>
                newInstanceAsyncAfterConfig f env dataDirPath

/-- State of the postgres child process at the moment its guard is dropped:
still running, or exited spontaneously without anyone having waited on it (a
zombie in POSIX terms — the pid still exists until reaped). -/
inductive ProcState where
  | running
  | exitedNotReaped
deriving DecidableEq, Repr

/-- POSIX `kill(pid, sig)`: succeeds as long as the pid exists.  An exited
child that has not been waited on still exists (as a zombie), so signalling it
succeeds; `ESRCH` would require the pid to have been reaped, which nothing in
the crate does before the guard's own `wait`. -/
def killSignal : ProcState → Except IoErr Unit
  | .running => .ok ()
  | .exitedNotReaped => .ok ()

/-- `Child::wait()`: blocks until the running child exits, or returns the
already-recorded status of a zombie child; either way `Ok`. -/
def waitChild : ProcState → Except IoErr Unit
  | .running => .ok ()
  | .exitedNotReaped => .ok ()

/-- Teardown events of a guard release and of the asynchronous supervising
task. -/
inductive TEv where
  | sendSIGINT
  | reapProcess
  | deleteDataDir
  | releaseSocketRef
  | releasePermit
  | sendStopRequest
  | recvStopRequest
  | logExitedEarly
deriving DecidableEq, Repr

/-- Result of running a `Drop` implementation: the events it performed, or a
panic (Rust still drops the struct's fields while unwinding, so the events
performed up to and during the unwind are listed too). -/
inductive DropOutcome where
  | completed (events : List TEv)
  | panicked (msg : String) (events : List TEv)
deriving DecidableEq, Repr

/-- `impl Drop for synchronous::ProcessGuard` (`synchronous.rs` lines
174-183): the body sends SIGINT (`signal::kill(..).unwrap()`) and waits for
the process (`self.postgres_process.wait().unwrap()`); the struct's fields are
then dropped in declaration order, deleting the instance's `TempDir` and
releasing the `Arc` reference to the socket directory. -/
def syncGuardDrop (p : ProcState) : DropOutcome :=
  match killSignal p with
  | .error _ => .panicked "signal::kill unwrap failed" [.deleteDataDir, .releaseSocketRef]
  | .ok _ =>
    match waitChild p with
    | .error _ =>
      .panicked "postgres_process.wait() unwrap failed"
        [.sendSIGINT, .deleteDataDir, .releaseSocketRef]
    | .ok _ => .completed [.sendSIGINT, .reapProcess, .deleteDataDir, .releaseSocketRef]

/-- `impl Drop for asynchronous::ProcessGuard` (`asynchronous.rs` lines
182-190): the body sends `()` on the oneshot `send_done` channel —
`.expect(..)`, a panic when the receiver (held by the supervising task) is
already gone — and the fields are then dropped in declaration order: the
instance `TempDir` is deleted, the socket-directory `Arc` reference and the
semaphore permit are released.  Nothing here waits for the process. -/
def asyncGuardDrop (receiverAlive : Bool) : DropOutcome :=
  if receiverAlive then
    .completed [.sendStopRequest, .deleteDataDir, .releaseSocketRef, .releasePermit]
  else
    .panicked "failed to signal postgresql process should be killed."
      [.deleteDataDir, .releaseSocketRef, .releasePermit]

/-- The events a `DropOutcome` performed. -/
def DropOutcome.events : DropOutcome → List TEv
  | .completed evs => evs
  | .panicked _ evs => evs

/-- The supervising task spawned by `new_instance_async` (`lib.rs` lines
246-261): `tokio::select!` races the child's exit against the stop request.
If the stop request wins it SIGINTs the child and awaits (reaps) it; if the
child exits on its own first, the task just logs "postgresql exited early" and
finishes, dropping the receiver. -/
def supervisorEvents (stopRequestedFirst : Bool) : List TEv :=
  if stopRequestedFirst then [.recvStopRequest, .sendSIGINT, .reapProcess]
  else [.logExitedEarly]

/-- The event sequence of the guard-drop thread on the normal asynchronous
release path (receiver alive). -/
def guardDropAsyncEvents : List TEv :=
  (asyncGuardDrop true).events

/-- The event sequence of the supervising task when the stop request wins the
race. -/
def supervisorStopEvents : List TEv :=
  supervisorEvents true

/-- `zs` is an interleaving of `xs` and `ys` (each kept in order). -/
inductive Interleave {α : Type} : List α → List α → List α → Prop
  | nil : Interleave [] [] []
  | left {x : α} {xs ys zs : List α} : Interleave xs ys zs → Interleave (x :: xs) ys (x :: zs)
  | right {y : α} {xs ys zs : List α} : Interleave xs ys zs → Interleave xs (y :: ys) (y :: zs)

/-- `a` occurs before `b` in `l` (both present, first occurrences ordered). -/
def occursBefore (l : List TEv) (a b : TEv) : Bool :=
  a ∈ l && b ∈ l && l.indexOf a < l.indexOf b

/-- `asynchronous::MAX_CONCURRENT_PROCESSES` (`asynchronous.rs` line 21):
`Semaphore::const_new(8)`. -/
def MAX_CONCURRENT_PROCESSES : Nat := 8

/-- Aggregate state of the cooperative model's permit pool and of the postgres
processes created through it: free permits; creations holding a permit that
have not yet spawned their process; creations/guards holding a permit whose
process is running; and processes whose guard was already dropped (permit
back in the pool) but which the supervising task has not yet reaped. -/
structure LimiterSt where
  available : Nat
  preSpawn : Nat
  live : Nat
  stopping : Nat
deriving DecidableEq, Repr

/-- Transitions of the cooperative model, read off `new_instance_async` and
the two `Drop`/supervisor paths: `acquire` a permit (blocks unless one is
free); release it again on a pre-spawn error return (`releaseEarly`); `spawn`
the process while holding the permit; drop the guard (`dropGuard`) — the stop
request is sent and the permit is released at once, while the process keeps
running until the supervising task reaps it (`reap`). -/
inductive LStep where
  | acquire
  | releaseEarly
  | spawn
  | dropGuard
  | reap
deriving DecidableEq, Repr

/-- One step of the limiter system; `none` when the step is not enabled. -/
def lstep (st : LimiterSt) : LStep → Option LimiterSt
  | .acquire =>
    if st.available = 0 then none
    else some ⟨st.available - 1, st.preSpawn + 1, st.live, st.stopping⟩
  | .releaseEarly =>
    if st.preSpawn = 0 then none
    else some ⟨st.available + 1, st.preSpawn - 1, st.live, st.stopping⟩
  | .spawn =>
    if st.preSpawn = 0 then none
    else some ⟨st.available, st.preSpawn - 1, st.live + 1, st.stopping⟩
  | .dropGuard =>
    if st.live = 0 then none
    else some ⟨st.available + 1, st.preSpawn, st.live - 1, st.stopping + 1⟩
  | .reap =>
    if st.stopping = 0 then none
    else some ⟨st.available, st.preSpawn, st.live, st.stopping - 1⟩

/-- Run a list of limiter steps. -/
def lrun (st : LimiterSt) : List LStep → Option LimiterSt
  | [] => some st
  | s :: rest =>
    match lstep st s with
    | none => none
    | some st' => lrun st' rest

/-- The initial limiter state: all `MAX_CONCURRENT_PROCESSES` permits free. -/
def linit : LimiterSt := ⟨MAX_CONCURRENT_PROCESSES, 0, 0, 0⟩

/-- Number of postgres processes currently running (live plus
being-shut-down). -/
def runningProcs (st : LimiterSt) : Nat := st.live + st.stopping

/-- The port of a successful synchronous creation, `none` otherwise. -/
def okPortSync : Outcome SyncProcessGuard → Option Nat
  | .ok g => some g.port
  | _ => none

/-- The connection string of a successful synchronous creation. -/
def okConnSync : Outcome SyncProcessGuard → Option String
  | .ok g => some g.connection_string
  | _ => none

/-- The port of a successful asynchronous creation. -/
def okPortAsync : Outcome AsyncProcessGuard → Option Nat
  | .ok g => some g.port
  | _ => none

/-- The connection string of a successful asynchronous creation. -/
def okConnAsync : Outcome AsyncProcessGuard → Option String
  | .ok g => some g.connection_string
  | _ => none

/-- Whether a successful asynchronous creation's guard holds the semaphore
permit. -/
def okPermitAsync : Outcome AsyncProcessGuard → Option Bool
  | .ok g => some g.holdsPermit
  | _ => none

/-! ### Helper lemmas -/

theorem strAppendAssoc (a b c : String) : a ++ b ++ c = a ++ (b ++ c) := by
  apply String.ext
  simp only [String.data_append, List.append_assoc]

theorem connStrNorm (p : Nat) (s : String) :
    connectionString "demo" p "demo" s =
      "postgresql://demo@localhost:" ++ toString p ++ "/demo?host=" ++ s := by
  unfold connectionString
  rw [show ("postgresql://" ++ "demo" ++ "@" ++ "localhost" ++ ":" : String) =
    "postgresql://demo@localhost:" from rfl]
  rw [strAppendAssoc ("postgresql://demo@localhost:" ++ toString p) "/" "demo"]
  rw [show ("/" ++ "demo" : String) = "/demo" from rfl]
  rw [strAppendAssoc ("postgresql://demo@localhost:" ++ toString p) "/demo" "?host="]
  rw [show ("/demo" ++ "?host=" : String) = "/demo?host=" from rfl]

theorem exec_process_clean (cmd : String) (fail : ProcessCapture → TmpPostgrustError)
    (c : CmdOutcome) (h : c.isCleanSuccess = true) :
    exec_process cmd fail c = .ok () := by
  match c, h with
  | .ran true ⟨some so⟩ ⟨some se⟩, _ => rfl

theorem copyEntriesLoop_ok (dst : String) (entries : List DirEntryRead)
    (h : entries.all (fun d => d.entry.isOk && d.cp.isCleanSuccess) = true) :
    copyEntriesLoop dst entries = .ok () := by
  induction entries with
  | nil => rfl
  | cons d rest ih =>
    simp only [List.all_cons, Bool.and_eq_true] at h
    obtain ⟨⟨hEntry, hCp⟩, hRest⟩ := h
    match d, hEntry with
    | ⟨.ok p, c⟩, _ =>
      simp only [copyEntriesLoop]
      rw [exec_process_clean _ _ _ hCp]
      exact ih hRest

theorem exec_copy_dir_ok (dst : String) (readDir : Except IoErr (List DirEntryRead))
    (h : (match readDir with
      | .ok entries => entries.all fun d => d.entry.isOk && d.cp.isCleanSuccess
      | .error _ => false) = true) :
    exec_copy_dir dst readDir = .ok () := by
  match readDir, h with
  | .ok entries, h => exact copyEntriesLoop_ok dst entries h

/-- The asynchronous readiness scan runs to completion without a panic (no
read error is hit before the marker or the end of the stream). -/
def asyncScanOk (sl : List (Except IoErr String)) : Bool :=
  match asyncReadyLoop sl with
  | .ok _ => true
  | _ => false

theorem new_instance_allOk (f : TmpPostgrustFactory) (env : InstanceEnv)
    (h : env.allOk = true) :
    (new_instance f env).outcome.isSuccess = true ∧
    okPortSync (new_instance f env).outcome = some f.next_port ∧
    okConnSync (new_instance f env).outcome =
      some (connectionString "demo" f.next_port "demo" f.socketDirPath) ∧
    (new_instance f env).next_port = (f.next_port + 1) % u32Mod ∧
    Ev.runCreateUser ∈ (new_instance f env).trace ∧
    Ev.scanReadiness (syncReadyLoop env.stderrLines) ∈ (new_instance f env).trace := by
  obtain ⟨dd, cm, sp, rd, pv, cc, wc, fp, sw, sl, cu, cdb⟩ := env
  simp only [InstanceEnv.allOk, Bool.and_eq_true] at h
  obtain ⟨⟨⟨⟨⟨⟨⟨⟨⟨⟨h1, h2⟩, h3⟩, h4⟩, h5⟩, h6⟩, h7⟩, h8⟩, h9⟩, h10⟩, h11⟩ := h
  cases dd with
  | error e => simp [Except.isOk, Except.toBool] at h1
  | ok d =>
  cases cm with
  | error e => simp [Except.isOk, Except.toBool] at h2
  | ok u =>
  cases sp with
  | error e => simp [Except.isOk, Except.toBool] at h3
  | ok u2 =>
  cases cc with
  | error e => simp [Except.isOk, Except.toBool] at h6
  | ok u3 =>
  cases wc with
  | error e => simp [Except.isOk, Except.toBool] at h7
  | ok u4 =>
  cases fp with
  | none => simp [Option.isSome] at h8
  | some fpath =>
  cases sw with
  | error e => simp [Except.isOk, Except.toBool] at h9
  | ok u5 =>
  simp only [new_instance]
  rw [exec_copy_dir_ok d rd h4]
  simp only [h5]
  simp only [newInstanceAfterConfig, exec_create_user, exec_create_db]
  rw [exec_process_clean _ _ _ h10, exec_process_clean _ _ _ h11]
  refine ⟨rfl, rfl, rfl, rfl, ?_, ?_⟩ <;> simp

theorem new_instance_async_allOk (f : TmpPostgrustFactory) (env : InstanceEnv)
    (h : env.allOk = true) (hscan : asyncScanOk env.stderrLines = true) :
    (new_instance_async f env).outcome.isSuccess = true ∧
    okPortAsync (new_instance_async f env).outcome = some f.next_port ∧
    okConnAsync (new_instance_async f env).outcome =
      some (connectionString "demo" f.next_port "demo" f.socketDirPath) ∧
    okPermitAsync (new_instance_async f env).outcome = some true ∧
    (new_instance_async f env).next_port = (f.next_port + 1) % u32Mod ∧
    Ev.runCreateUser ∈ (new_instance_async f env).trace := by
  obtain ⟨dd, cm, sp, rd, pv, cc, wc, fp, sw, sl, cu, cdb⟩ := env
  simp only [InstanceEnv.allOk, Bool.and_eq_true] at h
  obtain ⟨⟨⟨⟨⟨⟨⟨⟨⟨⟨h1, h2⟩, h3⟩, h4⟩, h5⟩, h6⟩, h7⟩, h8⟩, h9⟩, h10⟩, h11⟩ := h
  cases dd with
  | error e => simp [Except.isOk, Except.toBool] at h1
  | ok d =>
  cases cm with
  | error e => simp [Except.isOk, Except.toBool] at h2
  | ok u =>
  cases sp with
  | error e => simp [Except.isOk, Except.toBool] at h3
  | ok u2 =>
  cases cc with
  | error e => simp [Except.isOk, Except.toBool] at h6
  | ok u3 =>
  cases wc with
  | error e => simp [Except.isOk, Except.toBool] at h7
  | ok u4 =>
  cases fp with
  | none => simp [Option.isSome] at h8
  | some fpath =>
  cases sw with
  | error e => simp [Except.isOk, Except.toBool] at h9
  | ok u5 =>
  simp only [asyncScanOk] at hscan
  simp only [new_instance_async]
  rw [exec_copy_dir_ok d rd h4]
  simp only [h5]
  simp only [newInstanceAsyncAfterConfig, exec_create_user, exec_create_db]
  cases hloop : asyncReadyLoop sl with
  | err e => rw [hloop] at hscan; simp at hscan
  | panic m => rw [hloop] at hscan; simp at hscan
  | ok ready =>
  rw [exec_process_clean _ _ _ h10, exec_process_clean _ _ _ h11]
  simp [okPortAsync, okConnAsync, okPermitAsync, Outcome.isSuccess, fetchAddOne]

theorem portsFrom_closed (n : Nat) : ∀ c, c < u32Mod →
    portsFrom c n = (List.range n).map (fun i => (c + i) % u32Mod) := by
  induction n with
  | zero => intro c hc; rfl
  | succ n ih =>
    intro c hc
    have hM : 0 < u32Mod := by decide
    have hc1 : (c + 1) % u32Mod < u32Mod := Nat.mod_lt _ hM
    have h0 : (c + 0) % u32Mod = c := by
      simp only [Nat.add_zero]; exact Nat.mod_eq_of_lt hc
    simp only [portsFrom, fetchAddOne, ih ((c + 1) % u32Mod) hc1,
      List.range_succ_eq_map, List.map_cons, List.map_map, h0]
    congr 1
    congr 1
    funext i
    simp only [Function.comp]
    have hMv : u32Mod = 4294967296 := by norm_num [u32Mod]
    rw [hMv]
    omega

/-- The permit-conservation invariant of the limiter system: free permits plus
permits held by in-flight creations and by live guards always total the pool
capacity. -/
def permitInvariant (st : LimiterSt) : Prop :=
  st.available + st.preSpawn + st.live = MAX_CONCURRENT_PROCESSES

theorem lstep_preserves (st st' : LimiterSt) (s : LStep)
    (hinv : permitInvariant st) (h : lstep st s = some st') : permitInvariant st' := by
  cases s <;> simp only [lstep] at h <;> split at h <;>
    first
      | (simp only [Option.some.injEq] at h; subst h;
         simp only [permitInvariant, MAX_CONCURRENT_PROCESSES] at hinv ⊢; omega)
      | simp at h

theorem lrun_preserves (tr : List LStep) : ∀ st st', permitInvariant st →
    lrun st tr = some st' → permitInvariant st' := by
  induction tr with
  | nil =>
    intro st st' hinv h
    simp only [lrun, Option.some.injEq] at h
    subst h; exact hinv
  | cons s rest ih =>
    intro st st' hinv h
    simp only [lrun] at h
    cases hs : lstep st s with
    | none => rw [hs] at h; simp at h
    | some st1 =>
      rw [hs] at h
      exact ih st1 st' (lstep_preserves st st1 s hinv hs) h

/-- Every effect up to (but not including) the postgres spawn succeeds. -/
def preSpawnOk (env : InstanceEnv) : Bool :=
  env.dataDir.isOk && env.cacheMetadata.isOk && env.setPerms.isOk &&
    (match env.readDir with
      | .ok entries => entries.all fun d => d.entry.isOk && d.cp.isCleanSuccess
      | .error _ => false) &&
    env.pgVersionExists && env.createConfFile.isOk && env.writeConf.isOk &&
    env.findPostgres.isSome

/-- A ran-to-completion command with a non-zero exit status whose captured
streams are valid UTF-8 (the case in which `exec_process` returns the
classified error). -/
def CmdOutcome.isRanFailure : CmdOutcome → Bool
  | .ran false ⟨some _⟩ ⟨some _⟩ => true
  | _ => false

/-- Whether a `DropOutcome` is a panic. -/
def DropOutcome.didPanic : DropOutcome → Bool
  | .panicked _ _ => true
  | .completed _ => false

theorem exec_process_ranFail (cmd : String) (fail : ProcessCapture → TmpPostgrustError)
    (c : CmdOutcome) (h : c.isRanFailure = true) :
    ∃ cap, exec_process cmd fail c = .err (fail cap) := by
  match c, h with
  | .ran false ⟨some so⟩ ⟨some se⟩, _ => exact ⟨⟨so, se⟩, rfl⟩

/-- The template copy into the instance directory succeeds: `read_dir` yields
its entries and every per-entry `cp` run is a clean success. -/
def copyOk (env : InstanceEnv) : Bool :=
  match env.readDir with
  | .ok entries => entries.all fun d => d.entry.isOk && d.cp.isCleanSuccess
  | .error _ => false

theorem isOk_exists {α : Type} (x : Except IoErr α) (h : x.isOk = true) :
    ∃ a, x = .ok a := by
  cases x with
  | error e => simp [Except.isOk, Except.toBool] at h
  | ok a => exact ⟨a, rfl⟩

theorem asyncReadyLoop_no_err (sl : List (Except IoErr String)) :
    (asyncReadyLoop sl).isTypedErr = false := by
  induction sl with
  | nil => rfl
  | cons x rest ih =>
    cases x with
    | error e => rfl
    | ok line =>
      simp only [asyncReadyLoop]
      split
      · rfl
      · exact ih

theorem asyncHeadAcquire (f : TmpPostgrustFactory) (env : InstanceEnv) :
    (new_instance_async f env).trace.head? = some Ev.acquirePermit := by
  simp only [new_instance_async, newInstanceAsyncAfterConfig]
  repeat' split
  all_goals rfl

theorem c8_sync_shape (f : TmpPostgrustFactory) (env : InstanceEnv)
    (hok : (new_instance f env).outcome.isSuccess = true) :
    okConnSync (new_instance f env).outcome =
      some ("postgresql://demo@localhost:" ++ toString f.next_port ++ "/demo?host=" ++
        f.socketDirPath) ∧
    okPortSync (new_instance f env).outcome = some f.next_port := by
  obtain ⟨dd, cm, sp, rd, pv, cc, wc, fp, sw, sl, cu, cdb⟩ := env
  cases dd with
  | error e => simp [new_instance, Outcome.isSuccess] at hok
  | ok d =>
  cases cm with
  | error e => simp [new_instance, Outcome.isSuccess] at hok
  | ok u1 =>
  cases sp with
  | error e => simp [new_instance, Outcome.isSuccess] at hok
  | ok u2 =>
  simp only [new_instance] at hok ⊢
  cases hcopy : exec_copy_dir d rd with
  | err e => rw [hcopy] at hok; simp [Outcome.isSuccess] at hok
  | panic m => rw [hcopy] at hok; simp [Outcome.isSuccess] at hok
  | ok u3 =>
  rw [hcopy] at hok
  dsimp only at hok ⊢
  cases pv with
  | false => simp [Outcome.isSuccess] at hok
  | true =>
  rw [if_neg (by decide)] at hok ⊢
  cases cc with
  | error e => simp [Outcome.isSuccess] at hok
  | ok u4 =>
  cases wc with
  | error e => simp [Outcome.isSuccess] at hok
  | ok u5 =>
  simp only [newInstanceAfterConfig] at hok ⊢
  cases fp with
  | none => simp [Outcome.isSuccess] at hok
  | some fpath =>
  cases sw with
  | error e => simp [Outcome.isSuccess] at hok
  | ok u6 =>
  cases hcu : exec_create_user f.socketDirPath (fetchAddOne f.next_port).1 "demo" cu with
  | err e => rw [hcu] at hok; simp [Outcome.isSuccess] at hok
  | panic m => rw [hcu] at hok; simp [Outcome.isSuccess] at hok
  | ok u7 =>
  rw [hcu] at hok
  dsimp only at hok ⊢
  cases hcdb : exec_create_db f.socketDirPath (fetchAddOne f.next_port).1 "demo" "demo" cdb with
  | err e => rw [hcdb] at hok; simp [Outcome.isSuccess] at hok
  | panic m => rw [hcdb] at hok; simp [Outcome.isSuccess] at hok
  | ok u8 =>
  rw [hcdb] at hok
  dsimp only at hok ⊢
  refine ⟨?_, rfl⟩
  simp only [okConnSync, fetchAddOne]
  rw [connStrNorm]

theorem c8_async_shape (f : TmpPostgrustFactory) (env : InstanceEnv)
    (hok : (new_instance_async f env).outcome.isSuccess = true) :
    okConnAsync (new_instance_async f env).outcome =
      some ("postgresql://demo@localhost:" ++ toString f.next_port ++ "/demo?host=" ++
        f.socketDirPath) ∧
    okPortAsync (new_instance_async f env).outcome = some f.next_port := by
  obtain ⟨dd, cm, sp, rd, pv, cc, wc, fp, sw, sl, cu, cdb⟩ := env
  cases dd with
  | error e => simp [new_instance_async, Outcome.isSuccess] at hok
  | ok d =>
  cases cm with
  | error e => simp [new_instance_async, Outcome.isSuccess] at hok
  | ok u1 =>
  cases sp with
  | error e => simp [new_instance_async, Outcome.isSuccess] at hok
  | ok u2 =>
  simp only [new_instance_async] at hok ⊢
  cases hcopy : exec_copy_dir d rd with
  | err e => rw [hcopy] at hok; simp [Outcome.isSuccess] at hok
  | panic m => rw [hcopy] at hok; simp [Outcome.isSuccess] at hok
  | ok u3 =>
  rw [hcopy] at hok
  dsimp only at hok ⊢
  cases pv with
  | false => simp [Outcome.isSuccess] at hok
  | true =>
  rw [if_neg (by decide)] at hok ⊢
  cases cc with
  | error e => simp [Outcome.isSuccess] at hok
  | ok u4 =>
  cases wc with
  | error e => simp [Outcome.isSuccess] at hok
  | ok u5 =>
  simp only [newInstanceAsyncAfterConfig] at hok ⊢
  cases fp with
  | none => simp [Outcome.isSuccess] at hok
  | some fpath =>
  cases sw with
  | error e => simp [Outcome.isSuccess] at hok
  | ok u6 =>
  cases hloop : asyncReadyLoop sl with
  | err e => rw [hloop] at hok; simp [Outcome.isSuccess] at hok
  | panic m => rw [hloop] at hok; simp [Outcome.isSuccess] at hok
  | ok ready =>
  rw [hloop] at hok
  dsimp only at hok ⊢
  cases hcu : exec_create_user f.socketDirPath (fetchAddOne f.next_port).1 "demo" cu with
  | err e => rw [hcu] at hok; simp [Outcome.isSuccess] at hok
  | panic m => rw [hcu] at hok; simp [Outcome.isSuccess] at hok
  | ok u7 =>
  rw [hcu] at hok
  dsimp only at hok ⊢
  cases hcdb : exec_create_db f.socketDirPath (fetchAddOne f.next_port).1 "demo" "demo" cdb with
  | err e => rw [hcdb] at hok; simp [Outcome.isSuccess] at hok
  | panic m => rw [hcdb] at hok; simp [Outcome.isSuccess] at hok
  | ok u8 =>
  rw [hcdb] at hok
  dsimp only at hok ⊢
  refine ⟨?_, rfl⟩
  simp only [okConnAsync, fetchAddOne]
  rw [connStrNorm]

/-! ### Concrete fixtures used by witnesses and counterexamples -/

/-- A concrete socket-directory path as created by
`TempDir::new("tmp-postgrust-socket")`. -/
def exampleSocketPath : String := "/tmp/tmp-postgrust-socket.aB3"

/-- A concrete cache-directory path as created by
`TempDir::new("tmp-postgrust-cache")`. -/
def exampleCachePath : String := "/tmp/tmp-postgrust-cache.Xy9"

/-- The factory `try_new` builds from the two paths above. -/
def exampleFactory : TmpPostgrustFactory :=
  ⟨exampleSocketPath, exampleCachePath, build_config exampleSocketPath, 5432⟩

/-- A clean run of an external command (exit 0, valid empty output). -/
def cleanRun : CmdOutcome := .ran true ⟨some ""⟩ ⟨some ""⟩

/-- A ran-but-failed external command with captured diagnostics. -/
def failedRun : CmdOutcome := .ran false ⟨some ""⟩ ⟨some "FATAL:  command failed"⟩

/-- A factory-construction environment in which everything succeeds. -/
def envFactoryOk : FactoryEnv :=
  ⟨.ok exampleSocketPath, .ok exampleCachePath, some "/usr/lib/postgresql/bin/initdb", cleanRun⟩

/-- The postgres stderr line carrying the readiness marker. -/
def readyLine : Except IoErr String :=
  .ok "LOG:  database system is ready to accept connections"

/-- An instance-creation environment in which every external effect succeeds
and the readiness marker appears on stderr. -/
def envAllOk : InstanceEnv :=
  ⟨.ok "/tmp/tmp-postgrust-db.Qr7", .ok (), .ok (),
    .ok [⟨.ok "/tmp/tmp-postgrust-cache.Xy9/base", cleanRun⟩], true, .ok (), .ok (),
    some "/usr/lib/postgresql/bin/postgres", .ok (), [readyLine], cleanRun, cleanRun⟩

/-- `envAllOk`, except creating the instance temp directory fails. -/
def envDataDirFails : InstanceEnv := { envAllOk with dataDir := .error "ENOSPC" }

/-- `envAllOk`, except reading the cache directory's metadata fails. -/
def envMetadataFails : InstanceEnv := { envAllOk with cacheMetadata := .error "EACCES" }

/-- `envAllOk`, except copying the cache directory's permission bits onto the
instance directory fails. -/
def envSetPermsFails : InstanceEnv := { envAllOk with setPerms := .error "EPERM" }

/-- `envAllOk`, except the per-entry `cp` run of the template copy exits
non-zero. -/
def envCopyFails : InstanceEnv :=
  { envAllOk with readDir := .ok [⟨.ok "/tmp/tmp-postgrust-cache.Xy9/base", failedRun⟩] }

/-- `envAllOk`, except creating the `postgresql.conf` file fails. -/
def envConfFileFails : InstanceEnv := { envAllOk with createConfFile := .error "EROFS" }

/-- `envAllOk`, except writing the configuration text fails. -/
def envWriteConfFails : InstanceEnv := { envAllOk with writeConf := .error "EDQUOT" }

/-- `envAllOk`, except spawning the postgres process fails. -/
def envSpawnFails : InstanceEnv := { envAllOk with spawn := .error "EAGAIN" }

/-- `envAllOk`, except the `createuser` bootstrap command exits non-zero. -/
def envCreateUserFails : InstanceEnv := { envAllOk with createUser := failedRun }

/-- `envAllOk`, except the `createdb` bootstrap command exits non-zero. -/
def envCreateDbFails : InstanceEnv := { envAllOk with createDb := failedRun }

/-- `envAllOk`, except the stderr stream ends (empty) before any readiness
marker is observed. -/
def envNoMarker : InstanceEnv := { envAllOk with stderrLines := [] }

/-- `envAllOk`, except `PG_VERSION` is absent from the materialized
directory. -/
def envNoPgVersion : InstanceEnv := { envAllOk with pgVersionExists := false }

/-- A schedule of the cooperative model: 8 creations acquire and spawn, one
guard is dropped (permit released, process still shutting down), and a ninth
creation immediately acquires the freed permit and spawns. -/
def overCapacityTrace : List LStep :=
  [.acquire, .spawn, .acquire, .spawn, .acquire, .spawn, .acquire, .spawn,
    .acquire, .spawn, .acquire, .spawn, .acquire, .spawn, .acquire, .spawn,
    .dropGuard, .acquire, .spawn]

/-! ### Claim theorems -/

/-- C3: the cleanup-ordering invariant — "on every guard-release path, in both
models, the process is fully reaped before the guard's InstanceDirectory is
deleted" — holds in the blocking model, whose `Drop` body waits on the process
before the `TempDir` field is dropped; but in the cooperative model the guard's
`Drop` deletes the `TempDir` immediately after sending the stop request, while
the SIGINT-and-reap runs concurrently in the supervising task: there is a valid
interleaving of the two event sequences (consistent with the oneshot channel's
send-before-receive causality) in which the directory is deleted before the
process is reaped.  This contradicts the spec's stated invariant, so the
cooperative `Drop` is a bug against it. -/
theorem c3_reap_before_delete :
    (syncGuardDrop ProcState.running).events =
      [TEv.sendSIGINT, TEv.reapProcess, TEv.deleteDataDir, TEv.releaseSocketRef] ∧
    occursBefore (syncGuardDrop ProcState.running).events
      TEv.reapProcess TEv.deleteDataDir = true ∧
    ∃ tr : List TEv, Interleave guardDropAsyncEvents supervisorStopEvents tr ∧
      occursBefore tr TEv.sendStopRequest TEv.recvStopRequest = true ∧
      occursBefore tr TEv.deleteDataDir TEv.reapProcess = true := by
  refine ⟨rfl, by decide,
    ⟨[.sendStopRequest, .deleteDataDir, .releaseSocketRef, .releasePermit,
      .recvStopRequest, .sendSIGINT, .reapProcess], ?_, by decide, by decide⟩⟩
  show Interleave
    [TEv.sendStopRequest, TEv.deleteDataDir, TEv.releaseSocketRef, TEv.releasePermit]
    [TEv.recvStopRequest, TEv.sendSIGINT, TEv.reapProcess] _
  exact .left (.left (.left (.left (.right (.right (.right .nil))))))

/-- C7 (amended): for every command run through `exec_process` whose captured
streams decode as UTF-8, exactly one of three outcomes occurs — an OS-level
spawn failure yields the generic `ExecSubprocessFailed` error carrying the
command's description, a ran-but-non-zero-exit command yields the call-site
supplied classified error carrying the captured stdout and stderr, and
otherwise the run succeeds — and no panic occurs.  (The UTF-8 proviso is what
the counterexample forces: `String::from_utf8(..).unwrap()` panics on invalid
output bytes, a fourth outcome the original claim excludes.) -/
theorem c7_exec_outcomes (cmd : String) (fail : ProcessCapture → TmpPostgrustError)
    (r : CmdOutcome) (h : r.decodes = true) :
    (∀ e : IoErr, r = .spawnFailed e →
      exec_process cmd fail r = .err (.ExecSubprocessFailed e cmd)) ∧
    (∀ so se : String, r = .ran false ⟨some so⟩ ⟨some se⟩ →
      exec_process cmd fail r = .err (fail ⟨so, se⟩)) ∧
    (∀ o oe : RawOutput, r = .ran true o oe → exec_process cmd fail r = .ok ()) ∧
    (exec_process cmd fail r).isPanicked = false := by
  refine ⟨?_, ?_, ?_, ?_⟩
  · intro e hr; subst hr; rfl
  · intro so se hr; subst hr; rfl
  · intro o oe hr
    subst hr
    obtain ⟨od⟩ := o
    simp only [CmdOutcome.decodes, Bool.and_eq_true, Option.isSome_iff_exists] at h
    obtain ⟨⟨so, hso⟩, -⟩ := h
    subst hso
    rfl
  · cases r with
    | spawnFailed e => rfl
    | ran s o oe =>
      obtain ⟨od⟩ := o
      obtain ⟨oed⟩ := oe
      simp only [CmdOutcome.decodes, Bool.and_eq_true, Option.isSome_iff_exists] at h
      obtain ⟨⟨so, hso⟩, ⟨se, hse⟩⟩ := h
      subst hso
      subst hse
      cases s <;> rfl

/-- C7 counterexample: the claim as stated ("exactly one of three outcomes
occurs for every command") is false — a command that runs and exits zero but
produces non-UTF-8 stdout makes `exec_process` panic in
`String::from_utf8(..).unwrap()`, which is neither success, nor the generic
spawn error, nor the classified error. -/
theorem c7_exec_outcomes_cex :
    exec_process "createdb" TmpPostgrustError.CreateDBFailed (.ran true ⟨none⟩ ⟨some ""⟩) =
      .panic "String::from_utf8(output.stdout) failed" ∧
    (exec_process "createdb" TmpPostgrustError.CreateDBFailed
      (.ran true ⟨none⟩ ⟨some ""⟩)).isSuccess = false ∧
    (exec_process "createdb" TmpPostgrustError.CreateDBFailed
      (.ran true ⟨none⟩ ⟨some ""⟩)).isTypedErr = false := by decide

/-- C7 witness: the amended theorem applied at concrete command outcomes —
spawn failure, ran-and-failed, and clean success. -/
theorem c7_exec_outcomes_witness :
    exec_process "createdb" TmpPostgrustError.CreateDBFailed (.spawnFailed "ENOENT") =
      .err (.ExecSubprocessFailed "ENOENT" "createdb") ∧
    exec_process "createdb" TmpPostgrustError.CreateDBFailed
      (.ran false ⟨some "out"⟩ ⟨some "err"⟩) = .err (.CreateDBFailed ⟨"out", "err"⟩) ∧
    exec_process "createdb" TmpPostgrustError.CreateDBFailed cleanRun = .ok () ∧
    (exec_process "createdb" TmpPostgrustError.CreateDBFailed cleanRun).isPanicked = false :=
  ⟨(c7_exec_outcomes "createdb" TmpPostgrustError.CreateDBFailed
      (.spawnFailed "ENOENT") (by decide)).1 "ENOENT" rfl,
    (c7_exec_outcomes "createdb" TmpPostgrustError.CreateDBFailed
      (.ran false ⟨some "out"⟩ ⟨some "err"⟩) (by decide)).2.1 "out" "err" rfl,
    (c7_exec_outcomes "createdb" TmpPostgrustError.CreateDBFailed cleanRun
      (by decide)).2.2.1 ⟨some ""⟩ ⟨some ""⟩ rfl,
    (c7_exec_outcomes "createdb" TmpPostgrustError.CreateDBFailed cleanRun
      (by decide)).2.2.2⟩

/-- C9: both bootstrap commands are classified with the SAME error kind.
`exec_create_user` passes `TmpPostgrustError::CreateDBFailed` as its
classifier (`synchronous.rs` line 149, `asynchronous.rs` line 154), identical
to `exec_create_db`'s — so a failed `createuser` is reported as a
database-creation failure, contradicting the claim (and the spec's
"sub-kinded per call site"); given that every other call site passes its own
dedicated variant, this is an evident copy-paste slip in the code. -/
theorem c9_create_user_error_kind (socket : String) (port : Nat)
    (username owner dbname so se : String) :
    exec_create_user socket port username (.ran false ⟨some so⟩ ⟨some se⟩) =
      .err (.CreateDBFailed ⟨so, se⟩) ∧
    exec_create_db socket port owner dbname (.ran false ⟨some so⟩ ⟨some se⟩) =
      .err (.CreateDBFailed ⟨so, se⟩) := ⟨rfl, rfl⟩

/-- C10 (amended): if the engine process exits spontaneously before its guard
is released, then in the cooperative model releasing the guard panics — the
supervising task has already finished its exited-early branch
(`logExitedEarly`), dropping the oneshot receiver, so the guard's
`send(()).expect(..)` fails — but in the blocking model the drop handler's
`kill` and `wait` on the exited-but-unreaped (zombie) process both succeed,
so release completes without a panic on every process state. -/
theorem c10_drop_after_early_exit :
    supervisorEvents false = [TEv.logExitedEarly] ∧
    (asyncGuardDrop false).didPanic = true ∧
    asyncGuardDrop false =
      .panicked "failed to signal postgresql process should be killed."
        [.deleteDataDir, .releaseSocketRef, .releasePermit] ∧
    (∀ p : ProcState, (syncGuardDrop p).didPanic = false) := by
  refine ⟨rfl, rfl, rfl, ?_⟩
  intro p
  cases p <;> rfl

/-- C10 counterexample: the claim asserts that in the blocking model the drop
handler's unwrap of the kill result panics after a spontaneous exit; in fact
POSIX `kill` (and `wait`) on an exited-but-unreaped child succeed, so the
blocking drop completes quietly. -/
theorem c10_drop_after_early_exit_cex :
    (syncGuardDrop ProcState.exitedNotReaped).didPanic = false ∧
    syncGuardDrop ProcState.exitedNotReaped =
      .completed [.sendSIGINT, .reapProcess, .deleteDataDir, .releaseSocketRef] := by decide

/-- C2 (amended): if the stderr stream ends before a line containing the
readiness marker is observed, the readiness loop simply terminates — it is a
`while let Some(Ok(line))` over the stream — and instance creation PROCEEDS to
the bootstrap commands and, if they succeed, returns a guard; no early-exit
error is produced, in either the blocking or the cooperative model. -/
theorem c2_readiness_stream_end (f : TmpPostgrustFactory) (env : InstanceEnv)
    (h : env.allOk = true) (hm : syncReadyLoop env.stderrLines = false)
    (ha : asyncScanOk env.stderrLines = true) :
    (new_instance f env).outcome.isSuccess = true ∧
    Ev.runCreateUser ∈ (new_instance f env).trace ∧
    Ev.scanReadiness false ∈ (new_instance f env).trace ∧
    (new_instance_async f env).outcome.isSuccess = true ∧
    Ev.runCreateUser ∈ (new_instance_async f env).trace := by
  have hs := new_instance_allOk f env h
  have hasync := new_instance_async_allOk f env h ha
  refine ⟨hs.1, hs.2.2.2.2.1, ?_, hasync.1, hasync.2.2.2.2.2⟩
  have := hs.2.2.2.2.2
  rwa [hm] at this

/-- C2 counterexample: the claim as stated is false — with an empty stderr
stream (which ends before any readiness marker) and succeeding bootstrap
commands, `new_instance` returns a guard: no error, no panic, and the
bootstrap commands were reached. -/
theorem c2_readiness_stream_end_cex :
    (new_instance exampleFactory envNoMarker).outcome.isSuccess = true ∧
    (new_instance exampleFactory envNoMarker).outcome.isTypedErr = false ∧
    (new_instance exampleFactory envNoMarker).outcome.isPanicked = false ∧
    Ev.runCreateUser ∈ (new_instance exampleFactory envNoMarker).trace ∧
    Ev.guardReturned ∈ (new_instance exampleFactory envNoMarker).trace := by decide

/-- C2 witness: the amended theorem applied to the concrete factory and the
marker-less environment. -/
theorem c2_readiness_stream_end_witness :
    (new_instance exampleFactory envNoMarker).outcome.isSuccess = true ∧
    Ev.runCreateUser ∈ (new_instance exampleFactory envNoMarker).trace ∧
    Ev.scanReadiness false ∈ (new_instance exampleFactory envNoMarker).trace ∧
    (new_instance_async exampleFactory envNoMarker).outcome.isSuccess = true ∧
    Ev.runCreateUser ∈ (new_instance_async exampleFactory envNoMarker).trace :=
  c2_readiness_stream_end exampleFactory envNoMarker (by decide) (by decide) (by decide)

/-- C4 (amended): the port counter starts at 5432 (`try_new`), each creation
takes the current value and stores its wrapping successor
(`fetch_add(1)` on an `AtomicU32`), and for `N` sequential allocations with
`5432 + N ≤ 2^32` the handed-out ports are exactly
`5432, 5433, …, 5432 + N − 1` — strictly increasing and without repetition.
The `2^32` bound is what the counterexample forces: the counter is a 32-bit
wrapping integer, so after `2^32` allocations values repeat. -/
theorem c4_port_counter :
    (∀ (envF : FactoryEnv) (f : TmpPostgrustFactory),
      try_new envF = .ok f → f.next_port = 5432) ∧
    (∀ (f : TmpPostgrustFactory) (env : InstanceEnv), env.allOk = true →
      okPortSync (new_instance f env).outcome = some f.next_port ∧
      (new_instance f env).next_port = (f.next_port + 1) % u32Mod) ∧
    (∀ n : Nat, 5432 + n ≤ u32Mod →
      portsFrom 5432 n = (List.range n).map (fun i => 5432 + i) ∧
      (portsFrom 5432 n).Pairwise (· < ·) ∧ (portsFrom 5432 n).Nodup) := by
  refine ⟨?_, ?_, ?_⟩
  · intro envF f h
    obtain ⟨sd, cd, fi, idb⟩ := envF
    simp only [try_new] at h
    cases sd with
    | error e => simp at h
    | ok sPath =>
    cases cd with
    | error e => simp at h
    | ok cPath =>
    dsimp only at h
    cases hinit : exec_init_db cPath fi idb with
    | err e => rw [hinit] at h; simp at h
    | panic m => rw [hinit] at h; simp at h
    | ok u =>
      rw [hinit] at h
      simp only [Outcome.ok.injEq] at h
      subst h
      rfl
  · intro f env h
    have hs := new_instance_allOk f env h
    exact ⟨hs.2.1, hs.2.2.2.1⟩
  · intro n hn
    have hlt : (5432 : Nat) < u32Mod := by norm_num [u32Mod]
    have hmap : portsFrom 5432 n = (List.range n).map (fun i => 5432 + i) := by
      rw [portsFrom_closed n 5432 hlt]
      apply List.map_congr_left
      intro i hi
      have : i < n := List.mem_range.mp hi
      apply Nat.mod_eq_of_lt
      omega
    refine ⟨hmap, ?_, ?_⟩
    · rw [hmap]
      rw [List.pairwise_map]
      exact (List.pairwise_lt_range n).imp fun hab => Nat.add_lt_add_left hab 5432
    · rw [hmap]
      apply List.Nodup.map
      · intro a b hab
        have hab2 : 5432 + a = 5432 + b := hab
        omega
      · exact List.nodup_range n

/-- C4 counterexample: the claim as stated quantifies over every `N ≥ 1`, but
the counter is a wrapping 32-bit integer: after `2^32` allocations the next
port is 5432 again — position `2^32` of the allocation sequence holds 5432,
not the claimed `5432 + 2^32`, so ports repeat within a (very long-lived)
factory's lifetime. -/
theorem c4_port_counter_cex :
    (portsFrom 5432 (u32Mod + 1))[u32Mod]? = some 5432 ∧
    (5432 : Nat) ≠ 5432 + u32Mod := by
  constructor
  · rw [portsFrom_closed (u32Mod + 1) 5432 (by norm_num [u32Mod])]
    rw [List.getElem?_map, List.getElem?_range (by omega)]
    simp only [Option.map_some']
    rw [Nat.add_mod_right]
    norm_num [u32Mod]
  · norm_num [u32Mod]

/-- C4 witness: the amended theorem at a concrete factory environment, a
concrete all-success creation, and `N = 3`. -/
theorem c4_port_counter_witness :
    exampleFactory.next_port = 5432 ∧
    okPortSync (new_instance exampleFactory envAllOk).outcome =
      some exampleFactory.next_port ∧
    portsFrom 5432 3 = (List.range 3).map (fun i => 5432 + i) :=
  ⟨c4_port_counter.1 envFactoryOk exampleFactory rfl,
    (c4_port_counter.2.1 exampleFactory envAllOk (by decide)).1,
    (c4_port_counter.2.2 3 (by norm_num [u32Mod])).1⟩

/-- C5 (amended): the cooperative limiter is a counting permit pool of fixed
capacity 8; `new_instance_async` acquires one permit as its very first step,
a successful creation's guard holds the permit, and the permit is put back
when the guard is dropped.  Consequently at most 8 permits are out at any
reachable state (permit conservation), bounding permit-holding creations and
guards to 8.  What the counterexample forces off the original claim: the
guard's `Drop` releases the permit while the supervising task is still
shutting the process down, so the count of RUNNING processes can transiently
exceed 8. -/
theorem c5_concurrency_limit :
    MAX_CONCURRENT_PROCESSES = 8 ∧
    (∀ (f : TmpPostgrustFactory) (env : InstanceEnv),
      (new_instance_async f env).trace.head? = some Ev.acquirePermit) ∧
    (∀ (f : TmpPostgrustFactory) (env : InstanceEnv),
      env.allOk = true → asyncScanOk env.stderrLines = true →
      okPermitAsync (new_instance_async f env).outcome = some true) ∧
    (asyncGuardDrop true).events.contains TEv.releasePermit = true ∧
    (∀ (tr : List LStep) (st : LimiterSt), lrun linit tr = some st →
      st.available + st.preSpawn + st.live = MAX_CONCURRENT_PROCESSES ∧
      st.preSpawn + st.live ≤ MAX_CONCURRENT_PROCESSES) := by
  refine ⟨rfl, asyncHeadAcquire, ?_, by decide, ?_⟩
  · intro f env h ha
    exact (new_instance_async_allOk f env h ha).2.2.2.1
  · intro tr st h
    have hinv := lrun_preserves tr linit st rfl h
    simp only [permitInvariant] at hinv
    exact ⟨hinv, by omega⟩

/-- C5 counterexample: the claim's conclusion "at most 8 engine processes
created via the cooperative model run at any instant" is false — after 8
creations, one guard drop (which frees the permit while its process is still
being shut down by the supervising task) and a ninth acquire-and-spawn, the
system reaches a state with 9 processes running. -/
theorem c5_concurrency_limit_cex :
    lrun linit overCapacityTrace = some ⟨0, 0, 8, 1⟩ ∧
    runningProcs ⟨0, 0, 8, 1⟩ = 9 ∧
    MAX_CONCURRENT_PROCESSES < 9 := by decide

/-- C5 witness: the amended theorem applied at a concrete all-success
creation and at the one-step schedule `[acquire]`. -/
theorem c5_concurrency_limit_witness :
    okPermitAsync (new_instance_async exampleFactory envAllOk).outcome = some true ∧
    (7 + 1 + 0 = MAX_CONCURRENT_PROCESSES ∧ 1 + 0 ≤ MAX_CONCURRENT_PROCESSES) :=
  ⟨c5_concurrency_limit.2.2.1 exampleFactory envAllOk (by decide) (by decide),
    c5_concurrency_limit.2.2.2.2 [LStep.acquire] ⟨7, 1, 0, 0⟩ (by decide)⟩

/-- C6: if, after materializing the template, `PG_VERSION` does not exist in
the instance directory, creation returns the distinct `EmptyDataDirectory`
error before any engine process is started (no spawn, no bootstrap command in
the trace, the port counter untouched), in both models; and the factory —
whose template is never written by `new_instance` — still serves later
all-success creations. -/
theorem c6_empty_data_dir (f : TmpPostgrustFactory) (env : InstanceEnv)
    (hd : env.dataDir.isOk = true) (hm : env.cacheMetadata.isOk = true)
    (hs : env.setPerms.isOk = true)
    (hc : (match env.readDir with
      | .ok entries => entries.all fun d => d.entry.isOk && d.cp.isCleanSuccess
      | .error _ => false) = true)
    (hv : env.pgVersionExists = false) :
    (new_instance f env).outcome = .err .EmptyDataDirectory ∧
    Ev.spawnPostgres ∉ (new_instance f env).trace ∧
    Ev.runCreateUser ∉ (new_instance f env).trace ∧
    (new_instance f env).next_port = f.next_port ∧
    (new_instance_async f env).outcome = .err .EmptyDataDirectory ∧
    Ev.spawnPostgres ∉ (new_instance_async f env).trace ∧
    (∀ env2 : InstanceEnv, env2.allOk = true →
      (new_instance f env2).outcome.isSuccess = true) := by
  obtain ⟨dd, cm, sp, rd, pv, cc, wc, fp, sw, sl, cu, cdb⟩ := env
  dsimp only at hd hm hs hc hv
  subst hv
  cases dd with
  | error e => simp [Except.isOk, Except.toBool] at hd
  | ok d =>
  cases cm with
  | error e => simp [Except.isOk, Except.toBool] at hm
  | ok u1 =>
  cases sp with
  | error e => simp [Except.isOk, Except.toBool] at hs
  | ok u2 =>
  simp only [new_instance, new_instance_async]
  rw [exec_copy_dir_ok d rd hc]
  refine ⟨rfl, by simp, by simp, rfl, rfl, by simp, ?_⟩
  intro env2 h2
  exact (new_instance_allOk f env2 h2).1

/-- C6 witness: the theorem applied at the concrete factory and the
environment whose materialized directory lacks `PG_VERSION`, plus the
still-succeeding later creation at the all-success environment. -/
theorem c6_empty_data_dir_witness :
    (new_instance exampleFactory envNoPgVersion).outcome = .err .EmptyDataDirectory ∧
    Ev.spawnPostgres ∉ (new_instance exampleFactory envNoPgVersion).trace ∧
    (new_instance exampleFactory envNoPgVersion).next_port = exampleFactory.next_port ∧
    (new_instance_async exampleFactory envNoPgVersion).outcome = .err .EmptyDataDirectory ∧
    (new_instance exampleFactory envAllOk).outcome.isSuccess = true := by
  have h := c6_empty_data_dir exampleFactory envNoPgVersion
    (by decide) (by decide) (by decide) (by decide) rfl
  exact ⟨h.1, h.2.1, h.2.2.2.1, h.2.2.2.2.1, h.2.2.2.2.2.2 envAllOk (by decide)⟩

/-- C8: every successful creation's connection descriptor is exactly
`postgresql://demo@localhost:{port}/demo?host={socket_directory_path}` — the
role and database are both the fixed name "demo", the port is the value the
factory's counter held when this instance allocated it, and the host query
parameter is the factory's shared socket-directory path — in both the blocking
and the cooperative model. -/
theorem c8_connection_uri (f : TmpPostgrustFactory) (env : InstanceEnv) :
    ((new_instance f env).outcome.isSuccess = true →
      okConnSync (new_instance f env).outcome =
        some ("postgresql://demo@localhost:" ++ toString f.next_port ++ "/demo?host=" ++
          f.socketDirPath) ∧
      okPortSync (new_instance f env).outcome = some f.next_port) ∧
    ((new_instance_async f env).outcome.isSuccess = true →
      okConnAsync (new_instance_async f env).outcome =
        some ("postgresql://demo@localhost:" ++ toString f.next_port ++ "/demo?host=" ++
          f.socketDirPath) ∧
      okPortAsync (new_instance_async f env).outcome = some f.next_port) :=
  ⟨fun hok => c8_sync_shape f env hok, fun hok => c8_async_shape f env hok⟩

/-- C8 witness: the theorem applied at the concrete factory and all-success
environment; the URI evaluates to the fully concrete string. -/
theorem c8_connection_uri_witness :
    okConnSync (new_instance exampleFactory envAllOk).outcome =
      some "postgresql://demo@localhost:5432/demo?host=/tmp/tmp-postgrust-socket.aB3" ∧
    okPortSync (new_instance exampleFactory envAllOk).outcome = some 5432 ∧
    okConnAsync (new_instance_async exampleFactory envAllOk).outcome =
      some "postgresql://demo@localhost:5432/demo?host=/tmp/tmp-postgrust-socket.aB3" ∧
    okPortAsync (new_instance_async exampleFactory envAllOk).outcome = some 5432 := by
  have h := c8_connection_uri exampleFactory envAllOk
  have h1 := h.1 (by decide)
  have h2 := h.2 (by decide)
  exact ⟨h1.1.trans (by decide), h1.2, h2.1.trans (by decide), h2.2⟩

/-- C1 (amended): during instance creation, in BOTH the blocking and the
cooperative model, failures of data-directory creation, of the template copy,
of the version-marker check, of the config-file creation and write, and of
the engine spawn return typed errors to the caller; but failures of the
permission-copying step (`metadata(..).unwrap()`,
`set_permissions(..).unwrap()`) and of the bootstrap role-creation and
database-creation commands (`exec_create_user(..).unwrap()`,
`exec_create_db(..).unwrap()`) abort by panic instead. -/
theorem c1_error_propagation :
    (∀ (f : TmpPostgrustFactory) (env : InstanceEnv) (e : IoErr),
      env.dataDir = .error e →
      (new_instance f env).outcome = .err (.CreateCacheDirFailed e) ∧
      (new_instance_async f env).outcome = .err (.CreateCacheDirFailed e)) ∧
    (∀ (f : TmpPostgrustFactory) (env : InstanceEnv) (e : IoErr),
      env.dataDir.isOk = true → env.cacheMetadata = .error e →
      (new_instance f env).outcome.isPanicked = true ∧
      (new_instance_async f env).outcome.isPanicked = true) ∧
    (∀ (f : TmpPostgrustFactory) (env : InstanceEnv) (e : IoErr),
      env.dataDir.isOk = true → env.cacheMetadata.isOk = true → env.setPerms = .error e →
      (new_instance f env).outcome.isPanicked = true ∧
      (new_instance_async f env).outcome.isPanicked = true) ∧
    (∀ (f : TmpPostgrustFactory) (env : InstanceEnv) (d : String) (e : TmpPostgrustError),
      env.dataDir = .ok d → env.cacheMetadata.isOk = true → env.setPerms.isOk = true →
      exec_copy_dir d env.readDir = .err e →
      (new_instance f env).outcome = .err e ∧
      (new_instance_async f env).outcome = .err e) ∧
    (∀ (f : TmpPostgrustFactory) (env : InstanceEnv),
      env.dataDir.isOk = true → env.cacheMetadata.isOk = true → env.setPerms.isOk = true →
      copyOk env = true → env.pgVersionExists = false →
      (new_instance f env).outcome = .err .EmptyDataDirectory ∧
      (new_instance_async f env).outcome = .err .EmptyDataDirectory) ∧
    (∀ (f : TmpPostgrustFactory) (env : InstanceEnv) (e : IoErr),
      env.dataDir.isOk = true → env.cacheMetadata.isOk = true → env.setPerms.isOk = true →
      copyOk env = true → env.pgVersionExists = true → env.createConfFile = .error e →
      (new_instance f env).outcome = .err (.CreateConfigFailed e) ∧
      (new_instance_async f env).outcome = .err (.CreateConfigFailed e)) ∧
    (∀ (f : TmpPostgrustFactory) (env : InstanceEnv) (e : IoErr),
      env.dataDir.isOk = true → env.cacheMetadata.isOk = true → env.setPerms.isOk = true →
      copyOk env = true → env.pgVersionExists = true → env.createConfFile.isOk = true →
      env.writeConf = .error e →
      (new_instance f env).outcome = .err (.CreateConfigFailed e) ∧
      (new_instance_async f env).outcome = .err (.CreateConfigFailed e)) ∧
    (∀ (f : TmpPostgrustFactory) (env : InstanceEnv) (e : IoErr),
      preSpawnOk env = true → env.spawn = .error e →
      (new_instance f env).outcome = .err (.SpawnSubprocessFailed e) ∧
      (new_instance_async f env).outcome = .err (.SpawnSubprocessFailed e)) ∧
    (∀ (f : TmpPostgrustFactory) (env : InstanceEnv),
      preSpawnOk env = true → env.spawn.isOk = true → env.createUser.isRanFailure = true →
      (new_instance f env).outcome.isPanicked = true ∧
      (new_instance_async f env).outcome.isPanicked = true) ∧
    (∀ (f : TmpPostgrustFactory) (env : InstanceEnv),
      preSpawnOk env = true → env.spawn.isOk = true → env.createUser.isCleanSuccess = true →
      env.createDb.isRanFailure = true →
      (new_instance f env).outcome.isPanicked = true ∧
      (new_instance_async f env).outcome.isPanicked = true) := by
  refine ⟨?_, ?_, ?_, ?_, ?_, ?_, ?_, ?_, ?_, ?_⟩
  · intro f env e h
    obtain ⟨dd, cm, sp, rd, pv, cc, wc, fp, sw, sl, cu, cdb⟩ := env
    dsimp only at h
    subst h
    exact ⟨rfl, rfl⟩
  · intro f env e hdd hcm
    obtain ⟨dd, cm, sp, rd, pv, cc, wc, fp, sw, sl, cu, cdb⟩ := env
    dsimp only at hdd hcm
    obtain ⟨d, rfl⟩ := isOk_exists dd hdd
    subst hcm
    exact ⟨rfl, rfl⟩
  · intro f env e hdd hcm hsp
    obtain ⟨dd, cm, sp, rd, pv, cc, wc, fp, sw, sl, cu, cdb⟩ := env
    dsimp only at hdd hcm hsp
    obtain ⟨d, rfl⟩ := isOk_exists dd hdd
    obtain ⟨u1, rfl⟩ := isOk_exists cm hcm
    subst hsp
    exact ⟨rfl, rfl⟩
  · intro f env d e hd hcm hsp hcopy
    obtain ⟨dd, cm, sp, rd, pv, cc, wc, fp, sw, sl, cu, cdb⟩ := env
    dsimp only at hd hcm hsp hcopy
    subst hd
    obtain ⟨u1, rfl⟩ := isOk_exists cm hcm
    obtain ⟨u2, rfl⟩ := isOk_exists sp hsp
    refine ⟨?_, ?_⟩
    · simp only [new_instance]
      rw [hcopy]
    · simp only [new_instance_async]
      rw [hcopy]
  · intro f env hdd hcm hsp hcopy hpv
    obtain ⟨dd, cm, sp, rd, pv, cc, wc, fp, sw, sl, cu, cdb⟩ := env
    dsimp only at hdd hcm hsp hpv
    simp only [copyOk] at hcopy
    obtain ⟨d, rfl⟩ := isOk_exists dd hdd
    obtain ⟨u1, rfl⟩ := isOk_exists cm hcm
    obtain ⟨u2, rfl⟩ := isOk_exists sp hsp
    subst hpv
    refine ⟨?_, ?_⟩
    · simp only [new_instance]
      rw [exec_copy_dir_ok d rd hcopy]
      rfl
    · simp only [new_instance_async]
      rw [exec_copy_dir_ok d rd hcopy]
      rfl
  · intro f env e hdd hcm hsp hcopy hpv hcc
    obtain ⟨dd, cm, sp, rd, pv, cc, wc, fp, sw, sl, cu, cdb⟩ := env
    dsimp only at hdd hcm hsp hpv hcc
    simp only [copyOk] at hcopy
    obtain ⟨d, rfl⟩ := isOk_exists dd hdd
    obtain ⟨u1, rfl⟩ := isOk_exists cm hcm
    obtain ⟨u2, rfl⟩ := isOk_exists sp hsp
    subst hcc
    refine ⟨?_, ?_⟩
    · simp only [new_instance]
      rw [exec_copy_dir_ok d rd hcopy]
      simp only [hpv]
      rfl
    · simp only [new_instance_async]
      rw [exec_copy_dir_ok d rd hcopy]
      simp only [hpv]
      rfl
  · intro f env e hdd hcm hsp hcopy hpv hcc hwc
    obtain ⟨dd, cm, sp, rd, pv, cc, wc, fp, sw, sl, cu, cdb⟩ := env
    dsimp only at hdd hcm hsp hpv hcc hwc
    simp only [copyOk] at hcopy
    obtain ⟨d, rfl⟩ := isOk_exists dd hdd
    obtain ⟨u1, rfl⟩ := isOk_exists cm hcm
    obtain ⟨u2, rfl⟩ := isOk_exists sp hsp
    obtain ⟨u3, rfl⟩ := isOk_exists cc hcc
    subst hwc
    refine ⟨?_, ?_⟩
    · simp only [new_instance]
      rw [exec_copy_dir_ok d rd hcopy]
      simp only [hpv]
      rfl
    · simp only [new_instance_async]
      rw [exec_copy_dir_ok d rd hcopy]
      simp only [hpv]
      rfl
  · intro f env e hpre hsw
    obtain ⟨dd, cm, sp, rd, pv, cc, wc, fp, sw, sl, cu, cdb⟩ := env
    simp only [preSpawnOk, Bool.and_eq_true] at hpre
    obtain ⟨⟨⟨⟨⟨⟨⟨h1, h2⟩, h3⟩, h4⟩, h5⟩, h6⟩, h7⟩, h8⟩ := hpre
    dsimp only at hsw
    obtain ⟨d, rfl⟩ := isOk_exists dd h1
    obtain ⟨u1, rfl⟩ := isOk_exists cm h2
    obtain ⟨u2, rfl⟩ := isOk_exists sp h3
    obtain ⟨u3, rfl⟩ := isOk_exists cc h6
    obtain ⟨u4, rfl⟩ := isOk_exists wc h7
    obtain ⟨fpath, rfl⟩ := Option.isSome_iff_exists.mp h8
    subst hsw
    refine ⟨?_, ?_⟩
    · simp only [new_instance]
      rw [exec_copy_dir_ok d rd h4]
      simp only [h5]
      rfl
    · simp only [new_instance_async]
      rw [exec_copy_dir_ok d rd h4]
      simp only [h5]
      rfl
  · intro f env hpre hsw hcu
    obtain ⟨dd, cm, sp, rd, pv, cc, wc, fp, sw, sl, cu, cdb⟩ := env
    simp only [preSpawnOk, Bool.and_eq_true] at hpre
    obtain ⟨⟨⟨⟨⟨⟨⟨h1, h2⟩, h3⟩, h4⟩, h5⟩, h6⟩, h7⟩, h8⟩ := hpre
    dsimp only at hsw hcu
    obtain ⟨d, rfl⟩ := isOk_exists dd h1
    obtain ⟨u1, rfl⟩ := isOk_exists cm h2
    obtain ⟨u2, rfl⟩ := isOk_exists sp h3
    obtain ⟨u3, rfl⟩ := isOk_exists cc h6
    obtain ⟨u4, rfl⟩ := isOk_exists wc h7
    obtain ⟨fpath, rfl⟩ := Option.isSome_iff_exists.mp h8
    obtain ⟨u5, rfl⟩ := isOk_exists sw hsw
    obtain ⟨cap, hcap⟩ := exec_process_ranFail
      (createUserCommand f.socketDirPath (fetchAddOne f.next_port).1 "demo")
      TmpPostgrustError.CreateDBFailed cu hcu
    refine ⟨?_, ?_⟩
    · simp only [new_instance]
      rw [exec_copy_dir_ok d rd h4]
      simp only [h5]
      simp only [newInstanceAfterConfig, exec_create_user]
      rw [hcap]
      rfl
    · simp only [new_instance_async]
      rw [exec_copy_dir_ok d rd h4]
      simp only [h5]
      simp only [newInstanceAsyncAfterConfig, exec_create_user]
      cases hloop : asyncReadyLoop sl with
      | err e2 =>
        have hne := asyncReadyLoop_no_err sl
        rw [hloop] at hne
        simp [Outcome.isTypedErr] at hne
      | panic m => rfl
      | ok ready =>
        rw [hcap]
        rfl
  · intro f env hpre hsw hcu hcdb
    obtain ⟨dd, cm, sp, rd, pv, cc, wc, fp, sw, sl, cu, cdb⟩ := env
    simp only [preSpawnOk, Bool.and_eq_true] at hpre
    obtain ⟨⟨⟨⟨⟨⟨⟨h1, h2⟩, h3⟩, h4⟩, h5⟩, h6⟩, h7⟩, h8⟩ := hpre
    dsimp only at hsw hcu hcdb
    obtain ⟨d, rfl⟩ := isOk_exists dd h1
    obtain ⟨u1, rfl⟩ := isOk_exists cm h2
    obtain ⟨u2, rfl⟩ := isOk_exists sp h3
    obtain ⟨u3, rfl⟩ := isOk_exists cc h6
    obtain ⟨u4, rfl⟩ := isOk_exists wc h7
    obtain ⟨fpath, rfl⟩ := Option.isSome_iff_exists.mp h8
    obtain ⟨u5, rfl⟩ := isOk_exists sw hsw
    obtain ⟨cap, hcap⟩ := exec_process_ranFail
      (createDbCommand f.socketDirPath (fetchAddOne f.next_port).1 "demo" "demo")
      TmpPostgrustError.CreateDBFailed cdb hcdb
    refine ⟨?_, ?_⟩
    · simp only [new_instance]
      rw [exec_copy_dir_ok d rd h4]
      simp only [h5]
      simp only [newInstanceAfterConfig, exec_create_user, exec_create_db]
      rw [exec_process_clean _ _ _ hcu]
      rw [hcap]
      rfl
    · simp only [new_instance_async]
      rw [exec_copy_dir_ok d rd h4]
      simp only [h5]
      simp only [newInstanceAsyncAfterConfig, exec_create_user, exec_create_db]
      cases hloop : asyncReadyLoop sl with
      | err e2 =>
        have hne := asyncReadyLoop_no_err sl
        rw [hloop] at hne
        simp [Outcome.isTypedErr] at hne
      | panic m => rfl
      | ok ready =>
        rw [exec_process_clean _ _ _ hcu]
        rw [hcap]
        rfl

/-- C1 counterexample: the claim as stated is false — with every prior step
succeeding and the `createuser` bootstrap command exiting non-zero,
`new_instance` panics (`exec_create_user(..).unwrap()`) instead of returning
a typed error. -/
theorem c1_error_propagation_cex :
    (new_instance exampleFactory envCreateUserFails).outcome =
      .panic "exec_create_user unwrap failed" ∧
    (new_instance exampleFactory envCreateUserFails).outcome.isTypedErr = false := by decide

/-- C1 witness: every branch of the amended theorem applied at a concrete
environment, for both models. -/
theorem c1_error_propagation_witness :
    ((new_instance exampleFactory envDataDirFails).outcome =
        .err (.CreateCacheDirFailed "ENOSPC") ∧
      (new_instance_async exampleFactory envDataDirFails).outcome =
        .err (.CreateCacheDirFailed "ENOSPC")) ∧
    ((new_instance exampleFactory envMetadataFails).outcome.isPanicked = true ∧
      (new_instance_async exampleFactory envMetadataFails).outcome.isPanicked = true) ∧
    ((new_instance exampleFactory envSetPermsFails).outcome.isPanicked = true ∧
      (new_instance_async exampleFactory envSetPermsFails).outcome.isPanicked = true) ∧
    ((new_instance exampleFactory envCopyFails).outcome =
        .err (.CopyCachedInitDBFailed ⟨"", "FATAL:  command failed"⟩) ∧
      (new_instance_async exampleFactory envCopyFails).outcome =
        .err (.CopyCachedInitDBFailed ⟨"", "FATAL:  command failed"⟩)) ∧
    ((new_instance exampleFactory envNoPgVersion).outcome = .err .EmptyDataDirectory ∧
      (new_instance_async exampleFactory envNoPgVersion).outcome =
        .err .EmptyDataDirectory) ∧
    ((new_instance exampleFactory envConfFileFails).outcome =
        .err (.CreateConfigFailed "EROFS") ∧
      (new_instance_async exampleFactory envConfFileFails).outcome =
        .err (.CreateConfigFailed "EROFS")) ∧
    ((new_instance exampleFactory envWriteConfFails).outcome =
        .err (.CreateConfigFailed "EDQUOT") ∧
      (new_instance_async exampleFactory envWriteConfFails).outcome =
        .err (.CreateConfigFailed "EDQUOT")) ∧
    ((new_instance exampleFactory envSpawnFails).outcome =
        .err (.SpawnSubprocessFailed "EAGAIN") ∧
      (new_instance_async exampleFactory envSpawnFails).outcome =
        .err (.SpawnSubprocessFailed "EAGAIN")) ∧
    ((new_instance exampleFactory envCreateUserFails).outcome.isPanicked = true ∧
      (new_instance_async exampleFactory envCreateUserFails).outcome.isPanicked = true) ∧
    ((new_instance exampleFactory envCreateDbFails).outcome.isPanicked = true ∧
      (new_instance_async exampleFactory envCreateDbFails).outcome.isPanicked = true) :=
  ⟨c1_error_propagation.1 exampleFactory envDataDirFails "ENOSPC" rfl,
    c1_error_propagation.2.1 exampleFactory envMetadataFails "EACCES" (by decide) rfl,
    c1_error_propagation.2.2.1 exampleFactory envSetPermsFails "EPERM"
      (by decide) (by decide) rfl,
    c1_error_propagation.2.2.2.1 exampleFactory envCopyFails "/tmp/tmp-postgrust-db.Qr7"
      (.CopyCachedInitDBFailed ⟨"", "FATAL:  command failed"⟩)
      rfl (by decide) (by decide) (by decide),
    c1_error_propagation.2.2.2.2.1 exampleFactory envNoPgVersion
      (by decide) (by decide) (by decide) (by decide) rfl,
    c1_error_propagation.2.2.2.2.2.1 exampleFactory envConfFileFails "EROFS"
      (by decide) (by decide) (by decide) (by decide) rfl rfl,
    c1_error_propagation.2.2.2.2.2.2.1 exampleFactory envWriteConfFails "EDQUOT"
      (by decide) (by decide) (by decide) (by decide) rfl (by decide) rfl,
    c1_error_propagation.2.2.2.2.2.2.2.1 exampleFactory envSpawnFails "EAGAIN"
      (by decide) rfl,
    c1_error_propagation.2.2.2.2.2.2.2.2.1 exampleFactory envCreateUserFails
      (by decide) (by decide) (by decide),
    c1_error_propagation.2.2.2.2.2.2.2.2.2 exampleFactory envCreateDbFails
      (by decide) (by decide) (by decide) (by decide)⟩

end TmpPostgrust
